import Mathlib

set_option maxRecDepth 65536

/-!
Shallow embedding of the teslamate-telegram core: the per-car telemetry
state model, field-update parsing, charging/driving session detection from
the main update loop, and the notification formatters.

Modelling conventions: Go `float32`/`float64` values are rationals (ℚ),
Go `int` is ℤ, `time.Time` and `time.Duration` are ℤ nanoseconds, and the
reverse-geocoding lookup (`nominatimLookup`) is an explicit function
argument returning `Option LookupResult` (`none` models a lookup error).
Go strings are Lean strings; byte positions are modelled as character
positions.
-/

/-- Value of a most-significant-first decimal digit list. -/
def decDigitsVal (cs : List Char) : ℕ :=
  cs.foldl (fun n c => n * 10 + (c.toNat - 48)) 0

/-- Modelled from Go `strconv.Atoi`: optional sign followed by decimal
digits (int64 overflow is not modelled). -/
def parseIntOpt (s : String) : Option ℤ :=
  match s.data with
  | [] => none
  | '+' :: rest =>
      if rest ≠ [] ∧ rest.all Char.isDigit then some (decDigitsVal rest) else none
  | '-' :: rest =>
      if rest ≠ [] ∧ rest.all Char.isDigit then some (-(decDigitsVal rest : ℤ)) else none
  | cs =>
      if cs.all Char.isDigit then some (decDigitsVal cs) else none

/-- Modelled from Go `strconv.ParseFloat`, decimal forms only: digits with
an optional fractional part (exponents, `inf`/`nan` and hex floats are not
modelled; the exact decimal value is kept instead of a float32). -/
def parseUnsignedFloatOpt (cs : List Char) : Option ℚ :=
  let intPart := cs.takeWhile Char.isDigit
  let rest := cs.dropWhile Char.isDigit
  match rest with
  | [] => if intPart ≠ [] then some (decDigitsVal intPart : ℚ) else none
  | '.' :: frac =>
      if (intPart ≠ [] ∨ frac ≠ []) ∧ frac.all Char.isDigit then
        some ((decDigitsVal intPart : ℚ) + (decDigitsVal frac : ℚ) / (10 : ℚ) ^ frac.length)
      else none
  | _ => none

/-- Sign wrapper for `parseUnsignedFloatOpt`. -/
def parseFloatOpt (s : String) : Option ℚ :=
  match s.data with
  | '+' :: rest => parseUnsignedFloatOpt rest
  | '-' :: rest => (parseUnsignedFloatOpt rest).map Neg.neg
  | _ => parseUnsignedFloatOpt s.data

/-- Floor of a rational as an integer. -/
def qfloor (q : ℚ) : ℤ := Int.fdiv q.num q.den

/-- Round a rational to the nearest integer, ties to even (the rounding Go
`fmt` applies when printing with a fixed number of decimals). -/
def roundHalfEven (q : ℚ) : ℤ :=
  let f := qfloor q
  let frac := q - (f : ℚ)
  if frac < 1/2 then f
  else if 1/2 < frac then f + 1
  else if f % 2 = 0 then f else f + 1

/-- Left-pad a string with zeros to width `w`. -/
def padLeftZeros (s : String) (w : ℕ) : String :=
  if s.length < w then String.mk (List.replicate (w - s.length) '0') ++ s else s

/-- Modelled from Go `fmt` `%.*f` on the exact rational value: fixed-point
rendering with `prec` decimals, round half to even. -/
def formatFixed (prec : ℕ) (q : ℚ) : String :=
  let n := roundHalfEven (q * ((10 : ℚ) ^ prec))
  let mag := n.natAbs
  let sign := if n < 0 then "-" else ""
  if prec = 0 then sign ++ Nat.repr (mag / 10 ^ prec)
  else sign ++ Nat.repr (mag / 10 ^ prec) ++ "." ++
    padLeftZeros (Nat.repr (mag % 10 ^ prec)) prec

/-- Two-digit zero-padded rendering of a number below 100. -/
def pad2 (n : ℕ) : String :=
  if n < 10 then "0" ++ Nat.repr n else Nat.repr n

/-- Modelled from Go `time.Time.Format "15:04"` on a UTC timestamp given in
nanoseconds since the epoch. -/
def formatClock (t : ℤ) : String :=
  let m := (Int.emod (Int.ediv t 60000000000) 1440).toNat
  pad2 (m / 60) ++ ":" ++ pad2 (m % 60)

/-- Nanoseconds in a minute (`time.Minute`). -/
def nsPerMinute : ℤ := 60000000000

/-- Modelled from Go `time.Duration.Round`: round `d` to the nearest
multiple of `m`, half away from zero (the int64 overflow clamp is not
modelled). -/
def durRound (d m : ℤ) : ℤ :=
  if m ≤ 0 then d
  else
    let r := Int.tmod d m
    if d < 0 then
      if -r + -r < m then d + -r else d - m + -r
    else
      if r + r < m then d - r else d + m - r

/-- Whole minutes of a duration as computed by `formatDuration`:
`uint64(d.Round(time.Minute)) / uint64(time.Minute)` (the uint64
conversion wraps modulo 2^64). -/
def durationMinutes (d : ℤ) : ℕ :=
  (Int.emod (durRound d nsPerMinute) 18446744073709551616).toNat / 60000000000

/-- Embeds `formatDuration`. -/
def formatDuration (d : ℤ) : String :=
  let u := durationMinutes d
  if u < 60 then Nat.repr u ++ "m"
  else Nat.repr (u / 60) ++ "h" ++ Nat.repr (u % 60) ++ "m"

/-- Embeds the `CarState` struct; Go zero values are the field defaults. -/
structure CarState where
  «at» : ℤ := 0
  geofence : String := ""
  chargerPower : ℤ := 0
  chargerVoltage : ℤ := 0
  timeToFullCharge : ℚ := 0
  chargerActualCurrent : ℤ := 0
  chargeEnergyAdded : ℚ := 0
  estBatteryRangeKm : ℚ := 0
  ratedBatteryRangeKm : ℚ := 0
  idealBatteryRangeKm : ℚ := 0
  batteryLevel : ℤ := 0
  shiftState : String := ""
  odometer : ℚ := 0
  outsideTemp : ℚ := 0
  insideTemp : ℚ := 0
  pluggedIn : Bool := false
  latitude : ℚ := 0
  longitude : ℚ := 0
deriving DecidableEq

/-- Embeds the `LookupResult` struct of `nominatimLookup`. -/
structure LookupResult where
  DisplayName : String := ""
  Name : String := ""
deriving DecidableEq

/-- Reverse-geocoding capability, modelling `nominatimLookup`; `none` is a
lookup failure. -/
abbrev LookupFn := ℚ → ℚ → Option LookupResult

/-- Last index of character `c` in `cs`, modelling `strings.LastIndex` with
a one-character needle. -/
def lastIndexOf : List Char → Char → Option ℕ
  | [], _ => none
  | x :: xs, c =>
      match lastIndexOf xs c with
      | some i => some (i + 1)
      | none => if x = c then some 0 else none

/-- Embeds `truncate`: strings shorter than `limit` pass through; otherwise
cut at the last comma strictly before `limit` if any, else at `limit`. -/
def truncate (s : String) (limit : ℕ) : String :=
  if s.length < limit then s
  else
    match lastIndexOf (s.data.take limit) ',' with
    | some l => String.mk (s.data.take l)
    | none => String.mk (s.data.take limit)

/-- Embeds `CarState.placeName`, with the nominatim lookup passed in. -/
def placeName (lookup : LookupFn) (s : CarState) : String :=
  if s.geofence ≠ "" then s.geofence
  else
    match lookup s.latitude s.longitude with
    | some result =>
        let name := if result.Name = "" then result.DisplayName else result.Name
        if name ≠ "" then truncate name 20 else "?"
    | none => "?"

/-- Embeds the `Car` struct (the debounce timer is not modelled; updates
and evaluations are explicit steps). -/
structure Car where
  displayName : String := ""
  state : String := ""
  carState : CarState := {}
  charging : Bool := false
  chargeStart : CarState := {}
  chargePeak : CarState := {}
  driving : Bool := false
  driveStart : CarState := {}
deriving DecidableEq

/-- Embeds `Car.Update`: stamp the snapshot time, then dispatch on the
field name, silently ignoring unparseable values and unknown names.  The
Go `switch` is written as the equivalent if-chain; `now` stands for
`time.Now()`. -/
def Car.Update (car : Car) (key value : String) (now : ℤ) : Car :=
  let car := { car with carState := { car.carState with «at» := now } }
  if key = "display_name" then { car with displayName := value }
  else if key = "state" then { car with state := value }
  else if key = "shift_state" then
    { car with carState := { car.carState with shiftState := value } }
  else if key = "geofence" then
    { car with carState := { car.carState with geofence := value } }
  else if key = "charger_power" then
    match parseIntOpt value with
    | some i => { car with carState := { car.carState with chargerPower := i } }
    | none => car
  else if key = "charger_voltage" then
    match parseIntOpt value with
    | some i => { car with carState := { car.carState with chargerVoltage := i } }
    | none => car
  else if key = "time_to_full_charge" then
    match parseFloatOpt value with
    | some q => { car with carState := { car.carState with timeToFullCharge := q } }
    | none => car
  else if key = "charger_actual_current" then
    match parseIntOpt value with
    | some i => { car with carState := { car.carState with chargerActualCurrent := i } }
    | none => car
  else if key = "charge_energy_added" then
    match parseFloatOpt value with
    | some q => { car with carState := { car.carState with chargeEnergyAdded := q } }
    | none => car
  else if key = "est_battery_range_km" then
    match parseFloatOpt value with
    | some q => { car with carState := { car.carState with estBatteryRangeKm := q } }
    | none => car
  else if key = "ideal_battery_range_km" then
    match parseFloatOpt value with
    | some q => { car with carState := { car.carState with idealBatteryRangeKm := q } }
    | none => car
  else if key = "rated_battery_range_km" then
    match parseFloatOpt value with
    | some q => { car with carState := { car.carState with ratedBatteryRangeKm := q } }
    | none => car
  else if key = "battery_level" then
    match parseIntOpt value with
    | some i => { car with carState := { car.carState with batteryLevel := i } }
    | none => car
  else if key = "odometer" then
    match parseFloatOpt value with
    | some q => { car with carState := { car.carState with odometer := q } }
    | none => car
  else if key = "outside_temp" then
    match parseFloatOpt value with
    | some q => { car with carState := { car.carState with outsideTemp := q } }
    | none => car
  else if key = "inside_temp" then
    match parseFloatOpt value with
    | some q => { car with carState := { car.carState with insideTemp := q } }
    | none => car
  else if key = "plugged_in" then
    { car with carState := { car.carState with pluggedIn := value == "true" } }
  else if key = "latitude" then
    match parseFloatOpt value with
    | some q => { car with carState := { car.carState with latitude := q } }
    | none => car
  else if key = "longitude" then
    match parseFloatOpt value with
    | some q => { car with carState := { car.carState with longitude := q } }
    | none => car
  else car

/-- Embeds `driveShiftState`. -/
def driveShiftState (s : String) : Bool :=
  s == "D" || s == "R"

/-- Embeds the constant `RatedKMPerKwh`. -/
def RatedKMPerKwh : ℚ := 7.47

/-- Embeds the constant `KMPerMile`. -/
def KMPerMile : ℚ := 1.61

/-- Embeds `efficiency` (Wh per mile from rated-range depletion). -/
def efficiency (start «end» : CarState) : ℚ :=
  let kwh := (start.ratedBatteryRangeKm - «end».ratedBatteryRangeKm) / RatedKMPerKwh
  kwh * 1000 / («end».odometer - start.odometer) * KMPerMile

/-- Hours of a duration given in nanoseconds (`Duration.Hours`). -/
def durationHours (d : ℤ) : ℚ := (d : ℚ) / 3600000000000

/-- Embeds `finishChargingMessage` (the variant that includes the place
name). -/
def finishChargingMessage (lookup : LookupFn) (start «end» peak : CarState) : String :=
  let battery := «end».batteryLevel - start.batteryLevel
  if battery = 0 then ""
  else
    let duration := «end».«at» - start.«at»
    let averagePower := («end».chargeEnergyAdded - start.chargeEnergyAdded) / durationHours duration
    let milesAdded := («end».ratedBatteryRangeKm - start.ratedBatteryRangeKm) / KMPerMile
    "🔌 Charging finished at " ++ placeName lookup start ++ ".\n🕗 " ++
      formatClock start.«at» ++ "→" ++ formatClock «end».«at» ++ " (" ++
      formatDuration duration ++ ")\n🔋 " ++ toString start.batteryLevel ++ "→" ++
      toString «end».batteryLevel ++ "% (+ " ++ toString battery ++ "%)\n🚗 " ++
      formatFixed 0 (start.ratedBatteryRangeKm / KMPerMile) ++ "→" ++
      formatFixed 0 («end».ratedBatteryRangeKm / KMPerMile) ++ " miles (+ " ++
      formatFixed 1 milesAdded ++ " miles).\n⚡ + " ++
      formatFixed 1 «end».chargeEnergyAdded ++ "kWh\nAverage Power: " ++
      formatFixed 2 averagePower ++ "kW (Peak " ++ toString peak.chargerPower ++
      "kW at " ++ toString peak.batteryLevel ++ "%)"

/-- Embeds `finishDriveMessage` (the variant with place names and the
efficiency figure). -/
def finishDriveMessage (lookup : LookupFn) (start «end» : CarState) : String :=
  let distance := («end».odometer - start.odometer) / KMPerMile
  if distance < 0.1 then ""
  else
    let battery := «end».batteryLevel - start.batteryLevel
    let eff := efficiency start «end»
    let duration := «end».«at» - start.«at»
    let miles := (start.ratedBatteryRangeKm - «end».ratedBatteryRangeKm) / KMPerMile
    "🚗 " ++ placeName lookup start ++ "->" ++ placeName lookup «end» ++ " <code>" ++
      formatFixed 1 distance ++ "</code> miles 🌡 " ++
      formatFixed 1 start.outsideTemp ++ "°C\n🕗 " ++
      formatClock start.«at» ++ "→" ++ formatClock «end».«at» ++ " (" ++
      formatDuration duration ++ ")\n🔋 " ++ toString start.batteryLevel ++ "→" ++
      toString «end».batteryLevel ++ "% (" ++ toString battery ++ "%)\n🚘 " ++
      formatFixed 0 (start.ratedBatteryRangeKm / KMPerMile) ++ "→" ++
      formatFixed 0 («end».ratedBatteryRangeKm / KMPerMile) ++ " miles (" ++
      formatFixed 1 miles ++ " miles @ " ++ formatFixed 0 eff ++ "Wh/mi)"

/-- Embeds `statusMessage`. -/
def statusMessage (car : Car) : String :=
  "🔋" ++ toString car.carState.batteryLevel ++ "%"

/-- Charging-axis evaluation of one update, from the `carUpdates` branch of
`main`: end-detection, then peak-update, then start-detection, as the
else-if chain in the source; a fired end-detection yields the
`(chargeStart, carState, chargePeak)` triple handed to the formatter. -/
def evalChargeStep (car : Car) : Car × Option (CarState × CarState × CarState) :=
  if car.charging = true ∧ car.carState.chargerPower = 0 then
    ({ car with charging := false }, some (car.chargeStart, car.carState, car.chargePeak))
  else if car.charging = true ∧ car.chargePeak.chargerPower < car.carState.chargerPower then
    ({ car with chargePeak := car.carState }, none)
  else if car.charging = false ∧ 0 < car.carState.chargerPower then
    ({ car with charging := true, chargeStart := car.carState, chargePeak := car.carState }, none)
  else (car, none)

/-- Driving-axis evaluation of one update, from the `carUpdates` branch of
`main`; the second component is the drive-end message actually sent. -/
def evalDriveStep (lookup : LookupFn) (car : Car) : Car × Option String :=
  if driveShiftState car.carState.shiftState = true ∧ car.driving = false then
    ({ car with driving := true, driveStart := car.carState }, none)
  else if driveShiftState car.carState.shiftState = false ∧ car.driving = true then
    let text := finishDriveMessage lookup car.driveStart car.carState
    if text = "" then ({ car with driving := false }, none)
    else ({ car with driving := false }, some text)
  else (car, none)

/-- Full evaluation of one debounced update, from the `carUpdates` branch
of `main`: the charging axis runs first; when a charging end produces an
empty message the Go `break` leaves the select case, skipping the driving
axis for that update.  The two `Option String` components are the charging
and driving messages actually sent. -/
def evalStep (lookup : LookupFn) (car : Car) : Car × Option String × Option String :=
  match evalChargeStep car with
  | (car1, some (s, e, p)) =>
      let text := finishChargingMessage lookup s e p
      if text = "" then (car1, none, none)
      else
        let d := evalDriveStep lookup car1
        (d.1, some text, d.2)
  | (car1, none) =>
      let d := evalDriveStep lookup car1
      (d.1, none, d.2)

/-- Raw guard of the charging end-detection case. -/
def chargeEndCond (car : Car) : Prop :=
  car.charging = true ∧ car.carState.chargerPower = 0

/-- Raw guard of the charging peak-update case. -/
def chargePeakCond (car : Car) : Prop :=
  car.charging = true ∧ car.chargePeak.chargerPower < car.carState.chargerPower

/-- Raw guard of the charging start-detection case. -/
def chargeStartCond (car : Car) : Prop :=
  car.charging = false ∧ 0 < car.carState.chargerPower

/-- Install a snapshot as the current state and run the charging axis on
it (one debounced update seen by the charging axis). -/
def chargeFeed (car : Car) (s : CarState) : Car :=
  (evalChargeStep { car with carState := s }).1

/-- Feed a list of snapshots through the charging axis. -/
def chargeRun (car : Car) (ss : List CarState) : Car :=
  ss.foldl chargeFeed car

/-- Overwrite only the snapshot timestamp. -/
def setSnapshotTime (car : Car) (t : ℤ) : Car :=
  { car with carState := { car.carState with «at» := t } }

/-- The update fired the charging end-detection and the resulting message
was empty, so the Go `break` skipped the driving axis. -/
def chargeEndSuppressed (lookup : LookupFn) (car : Car) : Prop :=
  match (evalChargeStep car).2 with
  | some (s, e, p) => finishChargingMessage lookup s e p = ""
  | none => False

/-- Map of discovered cars keyed by car id, modelling `cars`. -/
abbrev CarMap := List (ℕ × Car)

/-- Lookup in the car map. -/
def lookupCar (cars : CarMap) (id : ℕ) : Option Car :=
  (cars.find? (fun p => p.1 == id)).map (fun p => p.2)

/-- Insert or replace a car in the map. -/
def setCar (cars : CarMap) (id : ℕ) (car : Car) : CarMap :=
  match cars with
  | [] => [(id, car)]
  | (i, c) :: rest => if i = id then (i, car) :: rest else (i, c) :: setCar rest id car

/-- Process-wide discovery state of `main`: the car map and the
`defaultCar` id (Go zero value 0 before any discovery). -/
structure World where
  cars : CarMap := []
  defaultCar : ℕ := 0
deriving DecidableEq

/-- Embeds `carHandler` restricted to an already-parsed topic: on an
unknown car id a fresh zero `Car` is created, `defaultCar` is set to this
id, and the update is applied; on a known id only the update is applied. -/
def carHandler (w : World) (carId : ℕ) (key value : String) (now : ℤ) : World :=
  match lookupCar w.cars carId with
  | some car => { w with cars := setCar w.cars carId (car.Update key value now) }
  | none =>
      let car := Car.Update {} key value now
      { cars := setCar w.cars carId car, defaultCar := carId }

/-- Fold a list of `(carId, key, value, now)` field updates through
`carHandler`. -/
def runWorld (w : World) (us : List (ℕ × String × String × ℤ)) : World :=
  us.foldl (fun w u => carHandler w u.1 u.2.1 u.2.2.1 u.2.2.2) w

/-- The `status` command of `main`: `statusMessage cars[defaultCar]`
(`none` models the nil-map-entry panic when no car was discovered). -/
def statusOfDefault (w : World) : Option String :=
  (lookupCar w.cars w.defaultCar).map statusMessage

/-- The id of the most recently discovered car after processing `ids` with
`seen` already known and `d` the current default: the reference value for
the corrected default-car claim. -/
def lastDiscovered (seen : List ℕ) (d : ℕ) : List ℕ → ℕ
  | [] => d
  | i :: rest =>
      if i ∈ seen then lastDiscovered seen d rest
      else lastDiscovered (i :: seen) i rest

/-- Lookup oracle used by the concrete driving example (the nominatim
answer the repository's own test stubs for Cow Lane). -/
def cowLookup : LookupFn := fun _ _ => some { Name := "Cow Lane" }

/-- Lookup oracle that always fails. -/
def failLookup : LookupFn := fun _ _ => none

/-- 06:39 UTC as nanoseconds past midnight. -/
def t0639 : ℤ := (6 * 60 + 39) * 60 * 1000000000

/-- Start snapshot of the repository's driving test. -/
def c4start : CarState :=
  { «at» := t0639, chargerPower := 7, chargeEnergyAdded := 0, batteryLevel := 50,
    odometer := 976, outsideTemp := 7.5, ratedBatteryRangeKm := 400, geofence := "Home" }

/-- End snapshot of the repository's driving test. -/
def c4end : CarState :=
  { «at» := t0639 + 8 * 60 * 1000000000, chargerPower := 0, chargeEnergyAdded := 3.8,
    batteryLevel := 48, odometer := 986, outsideTemp := 8, ratedBatteryRangeKm := 390,
    geofence := "", latitude := 52.3, longitude := 0.1 }

/-- A car mid-charging-session whose snapshot simultaneously shows charger
power 0, an unchanged battery level, and shift state "D" while no driving
session is active: the state reached by batching a gear change with the
final power reading. -/
def cexCar0 : Car :=
  { charging := true, chargeStart := { batteryLevel := 50 },
    chargePeak := { chargerPower := 5, batteryLevel := 50 },
    carState := { chargerPower := 5, batteryLevel := 50, shiftState := "D" } }

/-- `cexCar0` after one `charger_power := 0` update and one evaluation: the
charging end is detected, its message is empty (battery unchanged), and the
Go `break` skips the driving axis. -/
def cexCar1 : Car := (evalStep failLookup (Car.Update cexCar0 "charger_power" "0" 1)).1

/-- Field updates discovering car 1 first and car 2 second. -/
def c5updates : List (ℕ × String × String × ℤ) :=
  [(1, "battery_level", "50", 0), (2, "battery_level", "80", 1)]

/-! ### Helper lemmas -/

theorem string_data_append (a b : String) : (a ++ b).data = a.data ++ b.data := rfl

theorem string_append_ne_empty (a b : String) (h : b.data ≠ []) : a ++ b ≠ "" := by
  intro hc
  exact h (List.append_eq_nil.mp (congrArg String.data hc)).2

/-! ### C2 -/

/-- C2: `finishChargingMessage` returns the empty string whenever the end
battery level equals the start battery level, regardless of all other field
deltas; when the battery levels differ it returns a non-empty message. -/
theorem finishChargingMessage_empty_iff (lookup : LookupFn) (start «end» peak : CarState) :
    («end».batteryLevel = start.batteryLevel →
      finishChargingMessage lookup start «end» peak = "") ∧
    («end».batteryLevel ≠ start.batteryLevel →
      finishChargingMessage lookup start «end» peak ≠ "") := by
  constructor
  · intro h
    simp only [finishChargingMessage]
    rw [if_pos (by omega)]
  · intro h
    simp only [finishChargingMessage]
    rw [if_neg (by omega)]
    exact string_append_ne_empty _ _ (by decide)

theorem finishChargingMessage_empty_iff_witness :
    finishChargingMessage failLookup { batteryLevel := 50 }
      { batteryLevel := 50, chargeEnergyAdded := 9, chargerPower := 3 } {} = "" ∧
    finishChargingMessage failLookup { batteryLevel := 50 } { batteryLevel := 55 } {} ≠ "" :=
  ⟨(finishChargingMessage_empty_iff failLookup { batteryLevel := 50 }
      { batteryLevel := 50, chargeEnergyAdded := 9, chargerPower := 3 } {}).1 rfl,
   (finishChargingMessage_empty_iff failLookup { batteryLevel := 50 }
      { batteryLevel := 55 } {}).2 (by decide)⟩

/-! ### C3 -/

/-- C3: `finishDriveMessage` computes the distance as the odometer delta
divided by `KMPerMile = 1.61` and returns the empty string exactly when
that distance is below 0.1 miles (in particular for any negative odometer
delta); otherwise the message is non-empty. -/
theorem finishDriveMessage_empty_iff (lookup : LookupFn) (start «end» : CarState) :
    KMPerMile = 1.61 ∧
    ((«end».odometer - start.odometer) / KMPerMile < 0.1 →
      finishDriveMessage lookup start «end» = "") ∧
    (¬ («end».odometer - start.odometer) / KMPerMile < 0.1 →
      finishDriveMessage lookup start «end» ≠ "") ∧
    («end».odometer < start.odometer → finishDriveMessage lookup start «end» = "") := by
  refine ⟨rfl, ?_, ?_, ?_⟩
  · intro h
    simp only [finishDriveMessage]
    rw [if_pos h]
  · intro h
    simp only [finishDriveMessage]
    rw [if_neg h]
    exact string_append_ne_empty _ _ (by decide)
  · intro h
    have h1 : «end».odometer - start.odometer < 0 := by linarith
    have h2 : (0 : ℚ) < KMPerMile := by norm_num [KMPerMile]
    simp only [finishDriveMessage]
    rw [if_pos (lt_trans (div_neg_of_neg_of_pos h1 h2) (by norm_num))]

theorem finishDriveMessage_empty_iff_witness :
    finishDriveMessage failLookup { odometer := 10 } { odometer := 10.1 } = "" ∧
    finishDriveMessage failLookup { odometer := 10 } { odometer := 20 } ≠ "" ∧
    finishDriveMessage failLookup { odometer := 10 } { odometer := 3 } = "" :=
  ⟨(finishDriveMessage_empty_iff failLookup { odometer := 10 } { odometer := 10.1 }).2.1
      (by norm_num [KMPerMile]),
   (finishDriveMessage_empty_iff failLookup { odometer := 10 } { odometer := 20 }).2.2.1
      (by norm_num [KMPerMile]),
   (finishDriveMessage_empty_iff failLookup { odometer := 10 } { odometer := 3 }).2.2.2
      (by norm_num)⟩

/-! ### C10 -/

/-- C10: in the charging-end message the kWh figure printed before `kWh` is
the end snapshot's absolute `chargeEnergyAdded`, while the average power is
computed from the delta `end - start`; the two values coincide exactly when
the start snapshot's `chargeEnergyAdded` is zero. -/
theorem chargingMessage_energy_figure (lookup : LookupFn) (start «end» peak : CarState) :
    («end».batteryLevel ≠ start.batteryLevel →
      finishChargingMessage lookup start «end» peak =
        "🔌 Charging finished at " ++ placeName lookup start ++ ".\n🕗 " ++
        formatClock start.«at» ++ "→" ++ formatClock «end».«at» ++ " (" ++
        formatDuration («end».«at» - start.«at») ++ ")\n🔋 " ++
        toString start.batteryLevel ++ "→" ++ toString «end».batteryLevel ++ "% (+ " ++
        toString («end».batteryLevel - start.batteryLevel) ++ "%)\n🚗 " ++
        formatFixed 0 (start.ratedBatteryRangeKm / KMPerMile) ++ "→" ++
        formatFixed 0 («end».ratedBatteryRangeKm / KMPerMile) ++ " miles (+ " ++
        formatFixed 1 ((«end».ratedBatteryRangeKm - start.ratedBatteryRangeKm) / KMPerMile) ++
        " miles).\n⚡ + " ++ formatFixed 1 «end».chargeEnergyAdded ++
        "kWh\nAverage Power: " ++
        formatFixed 2 ((«end».chargeEnergyAdded - start.chargeEnergyAdded) /
          durationHours («end».«at» - start.«at»)) ++
        "kW (Peak " ++ toString peak.chargerPower ++ "kW at " ++
        toString peak.batteryLevel ++ "%)") ∧
    («end».chargeEnergyAdded = «end».chargeEnergyAdded - start.chargeEnergyAdded ↔
      start.chargeEnergyAdded = 0) := by
  constructor
  · intro h
    simp only [finishChargingMessage]
    rw [if_neg (by omega)]
  · constructor <;> intro h <;> linarith

theorem chargingMessage_energy_figure_witness :
    finishChargingMessage failLookup { batteryLevel := 50, chargeEnergyAdded := 1 }
      { batteryLevel := 55, chargeEnergyAdded := 3.8 } {} =
      "🔌 Charging finished at ?.\n🕗 00:00→00:00 (0m)\n🔋 50→55% (+ 5%)\n🚗 0→0 miles " ++
      "(+ 0.0 miles).\n⚡ + 3.8kWh\nAverage Power: 0.00kW (Peak 0kW at 0%)" := by
  rw [(chargingMessage_energy_figure failLookup { batteryLevel := 50, chargeEnergyAdded := 1 }
      { batteryLevel := 55, chargeEnergyAdded := 3.8 } {}).1 (by decide)]
  with_unfolding_all decide

/-! ### C4 -/

/-- C4: the efficiency figure of the driving-end message is
`(start.rated - end.rated) / 7.47 * 1000 / (end.odometer - start.odometer)
* 1.61` rendered with zero decimals, and on the repository's driving
example (odometer 976→986 km, rated range 400→390 km) it renders as
`216Wh/mi` inside the message. -/
theorem driveMessage_efficiency_figure :
    (∀ start «end» : CarState, efficiency start «end» =
      (start.ratedBatteryRangeKm - «end».ratedBatteryRangeKm) / (7.47 : ℚ) * 1000 /
        («end».odometer - start.odometer) * (1.61 : ℚ)) ∧
    RatedKMPerKwh = 7.47 ∧ KMPerMile = 1.61 ∧
    formatFixed 0 (efficiency c4start c4end) = "216" ∧
    finishDriveMessage cowLookup c4start c4end =
      "🚗 Home->Cow Lane <code>6.2</code> miles 🌡 7.5°C\n🕗 06:39→06:47 (8m)\n🔋 50→48% (-2%)\n🚘 248→242 miles (6.2 miles @ 216Wh/mi)" :=
  ⟨fun _ _ => rfl, rfl, rfl, by with_unfolding_all decide, by with_unfolding_all decide⟩

/-! ### C7 -/

theorem durationMinutes_eq (d : ℤ) (h0 : 0 ≤ d) (h1 : d ≤ 9223372036854775807) :
    durationMinutes d = ((d + 30000000000) / 60000000000).toNat := by
  simp only [durationMinutes, durRound, nsPerMinute]
  rw [Int.tmod_eq_emod h0 (by norm_num)]
  rw [if_neg (by norm_num : ¬ (60000000000 : ℤ) ≤ 0)]
  rw [if_neg (by omega : ¬ d < 0)]
  split_ifs with h2
  · have hx : Int.emod (d - d % 60000000000) 18446744073709551616
        = d - d % 60000000000 := Int.emod_eq_of_lt (by omega) (by omega)
    rw [hx]
    omega
  · have hx : Int.emod (d + 60000000000 - d % 60000000000) 18446744073709551616
        = d + 60000000000 - d % 60000000000 := Int.emod_eq_of_lt (by omega) (by omega)
    rw [hx]
    omega

/-- C7: `formatDuration` rounds its input to the nearest minute (for
non-negative durations in the int64 range the rounded minute count is
`(d + 30s) / 1min`, half-up), renders `"Xm"` exactly when that count is
below 60 and `"XhYm"` (hours and remainder minutes, no padding, no day
rollover) when it is 60 or more, the count is monotone in the duration,
the format switches exactly at the 60-minute boundary, and 89min30s
renders as `"1h30m"`. -/
theorem formatDuration_spec :
    (∀ d : ℤ, durationMinutes d < 60 →
      formatDuration d = Nat.repr (durationMinutes d) ++ "m") ∧
    (∀ d : ℤ, 60 ≤ durationMinutes d →
      formatDuration d = Nat.repr (durationMinutes d / 60) ++ "h" ++
        Nat.repr (durationMinutes d % 60) ++ "m") ∧
    (∀ d : ℤ, 0 ≤ d → d ≤ 9223372036854775807 →
      durationMinutes d = ((d + 30000000000) / 60000000000).toNat) ∧
    (∀ d₁ d₂ : ℤ, 0 ≤ d₁ → d₁ ≤ d₂ → d₂ ≤ 9223372036854775807 →
      durationMinutes d₁ ≤ durationMinutes d₂) ∧
    formatDuration ((89 * 60 + 30) * 1000000000) = "1h30m" ∧
    formatDuration (59 * nsPerMinute + 29999999999) = "59m" ∧
    formatDuration (59 * nsPerMinute + 30000000000) = "1h0m" ∧
    formatDuration (25 * 3600 * 1000000000) = "25h0m" := by
  refine ⟨?_, ?_, fun d h0 h1 => durationMinutes_eq d h0 h1, ?_, ?_, ?_, ?_, ?_⟩
  · intro d h
    simp only [formatDuration]
    rw [if_pos h]
  · intro d h
    simp only [formatDuration]
    rw [if_neg (by omega)]
  · intro d₁ d₂ h0 h12 h2
    rw [durationMinutes_eq d₁ h0 (le_trans h12 h2),
      durationMinutes_eq d₂ (le_trans h0 h12) h2]
    omega
  · decide
  · decide
  · decide
  · decide

theorem formatDuration_spec_witness :
    durationMinutes 5370000000000 = (((5370000000000 : ℤ) + 30000000000) / 60000000000).toNat ∧
    durationMinutes 5370000000000 ≤ durationMinutes 5400000000000 ∧
    formatDuration 5370000000000 = Nat.repr (durationMinutes 5370000000000 / 60) ++ "h" ++
      Nat.repr (durationMinutes 5370000000000 % 60) ++ "m" :=
  ⟨formatDuration_spec.2.2.1 5370000000000 (by decide) (by decide),
   formatDuration_spec.2.2.2.1 5370000000000 5400000000000 (by decide) (by decide) (by decide),
   formatDuration_spec.2.1 5370000000000 (by decide)⟩

/-! ### C6 -/

theorem lastIndexOf_eq_none (cs : List Char) (c : Char)
    (h : ∀ j, cs.get? j ≠ some c) : lastIndexOf cs c = none := by
  induction cs with
  | nil => rfl
  | cons x xs ih =>
      have hx : x ≠ c := by
        intro he
        exact h 0 (by simp [he])
      have htail : ∀ j, xs.get? j ≠ some c := by
        intro j
        have := h (j + 1)
        simpa using this
      simp only [lastIndexOf]
      rw [ih htail]
      simp [hx]

theorem lastIndexOf_eq_some (cs : List Char) (c : Char) (i : ℕ)
    (hget : cs.get? i = some c) (hlast : ∀ j, i < j → cs.get? j ≠ some c) :
    lastIndexOf cs c = some i := by
  induction cs generalizing i with
  | nil => simp at hget
  | cons x xs ih =>
      cases i with
      | zero =>
          have hx : x = c := by simpa using hget
          have hnone : lastIndexOf xs c = none := by
            apply lastIndexOf_eq_none
            intro j
            have := hlast (j + 1) (by omega)
            simpa using this
          simp only [lastIndexOf]
          rw [hnone]
          simp [hx]
      | succ i =>
          have hget' : xs.get? i = some c := by simpa using hget
          have hlast' : ∀ j, i < j → xs.get? j ≠ some c := by
            intro j hj
            have := hlast (j + 1) (by omega)
            simpa using this
          simp only [lastIndexOf]
          rw [ih i hget' hlast']

theorem lastIndexOf_lt_length (cs : List Char) (c : Char) (i : ℕ)
    (h : lastIndexOf cs c = some i) : i < cs.length := by
  induction cs generalizing i with
  | nil => simp [lastIndexOf] at h
  | cons x xs ih =>
      simp only [lastIndexOf] at h
      cases hx : lastIndexOf xs c with
      | some j =>
          rw [hx] at h
          simp at h
          have := ih j hx
          simp
          omega
      | none =>
          rw [hx] at h
          by_cases hxc : x = c
          · rw [if_pos hxc] at h
            simp at h
            simp
            omega
          · rw [if_neg hxc] at h
            simp at h

/-- C6: `placeName` returns a non-empty geofence label verbatim regardless
of coordinates; otherwise it returns the lookup name (preferring the short
`Name`, falling back to `DisplayName` when `Name` is empty) truncated to at
most 20 characters, cutting at the last comma strictly before position 20
(comma excluded) and hard-cutting at 20 when there is no such comma, with
strings shorter than the limit passed through unchanged; it returns `"?"`
when the lookup fails or both name fields are empty. -/
theorem placeName_spec :
    (∀ (lookup : LookupFn) (s : CarState), s.geofence ≠ "" →
      placeName lookup s = s.geofence) ∧
    (∀ (lookup : LookupFn) (s : CarState), s.geofence = "" →
      lookup s.latitude s.longitude = none → placeName lookup s = "?") ∧
    (∀ (lookup : LookupFn) (s : CarState) (r : LookupResult), s.geofence = "" →
      lookup s.latitude s.longitude = some r → r.Name = "" → r.DisplayName = "" →
      placeName lookup s = "?") ∧
    (∀ (lookup : LookupFn) (s : CarState) (r : LookupResult), s.geofence = "" →
      lookup s.latitude s.longitude = some r → r.Name ≠ "" →
      placeName lookup s = truncate r.Name 20) ∧
    (∀ (lookup : LookupFn) (s : CarState) (r : LookupResult), s.geofence = "" →
      lookup s.latitude s.longitude = some r → r.Name = "" → r.DisplayName ≠ "" →
      placeName lookup s = truncate r.DisplayName 20) ∧
    (∀ s : String, s.length < 20 → truncate s 20 = s) ∧
    (∀ s : String, (truncate s 20).length ≤ 20) ∧
    (∀ s : String, 20 ≤ s.length → (∀ j, j < 20 → s.data.get? j ≠ some ',') →
      truncate s 20 = String.mk (s.data.take 20)) ∧
    (∀ (s : String) (i : ℕ), 20 ≤ s.length → i < 20 → s.data.get? i = some ',' →
      (∀ j, i < j → j < 20 → s.data.get? j ≠ some ',') →
      truncate s 20 = String.mk (s.data.take i)) := by
  refine ⟨?_, ?_, ?_, ?_, ?_, ?_, ?_, ?_, ?_⟩
  · intro lookup s h
    simp only [placeName]
    rw [if_pos h]
  · intro lookup s hg hl
    simp only [placeName, hl]
    rw [if_neg (by simpa using hg)]
  · intro lookup s r hg hl hn hd
    simp only [placeName, hl]
    rw [if_neg (by simpa using hg)]
    simp [hn, hd]
  · intro lookup s r hg hl hn
    simp only [placeName, hl]
    rw [if_neg (by simpa using hg)]
    simp [hn]
  · intro lookup s r hg hl hn hd
    simp only [placeName, hl]
    rw [if_neg (by simpa using hg)]
    simp [hn, hd]
  · intro s h
    simp only [truncate]
    rw [if_pos h]
  · intro s
    simp only [truncate]
    split_ifs with h
    · omega
    · cases hx : lastIndexOf (s.data.take 20) ',' with
      | some l =>
          have hl : l < (s.data.take 20).length := lastIndexOf_lt_length _ _ _ hx
          simp only [String.length, List.length_take] at hl ⊢
          omega
      | none =>
          simp only [String.length, List.length_take]
          omega
  · intro s hlen h
    simp only [truncate]
    rw [if_neg (by omega)]
    have hx : lastIndexOf (s.data.take 20) ',' = none := by
      apply lastIndexOf_eq_none
      intro j
      by_cases hj : j < 20
      · rw [List.get?_take hj]
        exact h j hj
      · rw [List.get?_eq_none.mpr]
        · simp
        · simp only [List.length_take]
          omega
    rw [hx]
  · intro s i hlen hi hget hafter
    simp only [truncate]
    rw [if_neg (by omega)]
    have hx : lastIndexOf (s.data.take 20) ',' = some i := by
      apply lastIndexOf_eq_some
      · rw [List.get?_take hi]
        exact hget
      · intro j hj
        by_cases hj20 : j < 20
        · rw [List.get?_take hj20]
          exact hafter j hj hj20
        · rw [List.get?_eq_none.mpr]
          · simp
          · simp only [List.length_take]
            omega
    rw [hx]

theorem placeName_spec_witness :
    placeName failLookup { geofence := "Home", latitude := 52.3 } = "Home" ∧
    placeName failLookup { latitude := 52.3 } = "?" ∧
    placeName cowLookup { latitude := 52.3 } = truncate "Cow Lane" 20 ∧
    truncate "A" 20 = "A" ∧
    truncate "3, Hurrell Road, Cambridge, Cambridgeshire, East of England, England, CB4 3RQ, United Kingdom" 20 = "3, Hurrell Road" ∧
    truncate "A very long test without a comma" 20 = "A very long test wit" :=
  ⟨placeName_spec.1 failLookup { geofence := "Home", latitude := 52.3 } (by decide),
   placeName_spec.2.1 failLookup { latitude := 52.3 } rfl (by with_unfolding_all rfl),
   placeName_spec.2.2.2.1 cowLookup { latitude := 52.3 } { Name := "Cow Lane" } rfl
     (by with_unfolding_all rfl) (by decide),
   placeName_spec.2.2.2.2.2.1 "A" (by decide),
   by
     rw [placeName_spec.2.2.2.2.2.2.2.2
       "3, Hurrell Road, Cambridge, Cambridgeshire, East of England, England, CB4 3RQ, United Kingdom"
       15 (by decide) (by decide) (by decide)
       (by intro j h1 h2; interval_cases j <;> decide)]
     decide,
   by
     rw [placeName_spec.2.2.2.2.2.2.2.1 "A very long test without a comma"
       (by decide) (by intro j hj; interval_cases j <;> decide)]
     decide⟩

/-! ### C1 -/

theorem evalDriveStep_preserves (lookup : LookupFn) (car : Car) :
    (evalDriveStep lookup car).1.charging = car.charging ∧
    (evalDriveStep lookup car).1.chargeStart = car.chargeStart ∧
    (evalDriveStep lookup car).1.chargePeak = car.chargePeak ∧
    (evalDriveStep lookup car).1.carState = car.carState ∧
    (evalDriveStep lookup car).1.displayName = car.displayName ∧
    (evalDriveStep lookup car).1.state = car.state := by
  simp only [evalDriveStep]
  split_ifs <;> exact ⟨rfl, rfl, rfl, rfl, rfl, rfl⟩

theorem evalChargeStep_preserves (car : Car) :
    (evalChargeStep car).1.driving = car.driving ∧
    (evalChargeStep car).1.driveStart = car.driveStart ∧
    (evalChargeStep car).1.carState = car.carState ∧
    (evalChargeStep car).1.displayName = car.displayName ∧
    (evalChargeStep car).1.state = car.state := by
  simp only [evalChargeStep]
  split_ifs <;> exact ⟨rfl, rfl, rfl, rfl, rfl⟩

theorem evalStep_charge_fields (lookup : LookupFn) (car : Car) :
    (evalStep lookup car).1.charging = (evalChargeStep car).1.charging ∧
    (evalStep lookup car).1.chargeStart = (evalChargeStep car).1.chargeStart ∧
    (evalStep lookup car).1.chargePeak = (evalChargeStep car).1.chargePeak := by
  simp only [evalStep]
  rcases hc : evalChargeStep car with ⟨car1, ev⟩
  cases ev with
  | none =>
      simp only []
      exact ⟨(evalDriveStep_preserves lookup car1).1,
        (evalDriveStep_preserves lookup car1).2.1,
        (evalDriveStep_preserves lookup car1).2.2.1⟩
  | some t =>
      obtain ⟨s, e, p⟩ := t
      simp only []
      split_ifs
      · exact ⟨rfl, rfl, rfl⟩
      · exact ⟨(evalDriveStep_preserves lookup car1).1,
          (evalDriveStep_preserves lookup car1).2.1,
          (evalDriveStep_preserves lookup car1).2.2.1⟩

theorem chargeRun_peak_inv (ss : List CarState) (car : Car)
    (hch : car.charging = true) (hpos : 0 < car.chargePeak.chargerPower)
    (hall : ∀ s ∈ ss, 0 < s.chargerPower) :
    (chargeRun car ss).charging = true ∧
    (chargeRun car ss).chargePeak.chargerPower =
      (ss.map CarState.chargerPower).foldl max car.chargePeak.chargerPower := by
  induction ss generalizing car with
  | nil => exact ⟨hch, rfl⟩
  | cons s rest ih =>
      have hs : 0 < s.chargerPower := hall s (List.mem_cons_self s rest)
      have hrest : ∀ x ∈ rest, 0 < x.chargerPower :=
        fun x hx => hall x (List.mem_cons_of_mem s hx)
      rw [show chargeRun car (s :: rest) = chargeRun (chargeFeed car s) rest from rfl]
      by_cases hp : car.chargePeak.chargerPower < s.chargerPower
      · have hfeed : chargeFeed car s =
            { car with carState := s, chargePeak := s } := by
          simp only [chargeFeed, evalChargeStep]
          rw [if_neg (by rintro ⟨-, h⟩; omega), if_pos ⟨hch, hp⟩]
        rw [hfeed]
        obtain ⟨ha, hb⟩ := ih { car with carState := s, chargePeak := s } hch hs hrest
        refine ⟨ha, ?_⟩
        rw [hb]
        simp only [List.map_cons, List.foldl_cons]
        congr 1
        omega
      · have hfeed : chargeFeed car s = { car with carState := s } := by
          simp only [chargeFeed, evalChargeStep]
          rw [if_neg (by rintro ⟨-, h⟩; omega), if_neg (by rintro ⟨-, h⟩; omega),
            if_neg (by rintro ⟨h, -⟩; rw [hch] at h; cases h)]
        rw [hfeed]
        obtain ⟨ha, hb⟩ := ih { car with carState := s } hch hpos hrest
        refine ⟨ha, ?_⟩
        rw [hb]
        simp only [List.map_cons, List.foldl_cons]
        congr 1
        omega

/-- C1: in the charging axis of the update evaluation the peak snapshot is
replaced only on a strict power increase (a tie never updates it), after a
session start plus any run of in-session updates the peak's charger power
is the maximum charger power observed since the session start, the three
charging cases are mutually exclusive (end/peak under the in-session
invariant that the stored peak power is non-negative), they are checked in
the priority order end-detection, peak-update, start-detection, and the
charging axis is evaluated independently of the driving axis. -/
theorem chargingAxis_spec :
    (∀ car : Car, 0 ≤ car.chargePeak.chargerPower →
      ¬(chargeEndCond car ∧ chargePeakCond car) ∧
      ¬(chargeEndCond car ∧ chargeStartCond car) ∧
      ¬(chargePeakCond car ∧ chargeStartCond car)) ∧
    (∀ car : Car,
      (chargeEndCond car →
        evalChargeStep car = ({ car with charging := false },
          some (car.chargeStart, car.carState, car.chargePeak))) ∧
      (¬chargeEndCond car → chargePeakCond car →
        evalChargeStep car = ({ car with chargePeak := car.carState }, none)) ∧
      (¬chargeEndCond car → ¬chargePeakCond car → chargeStartCond car →
        evalChargeStep car =
          ({ car with
              charging := true, chargeStart := car.carState, chargePeak := car.carState },
            none)) ∧
      (¬chargeEndCond car → ¬chargePeakCond car → ¬chargeStartCond car →
        evalChargeStep car = (car, none))) ∧
    (∀ car : Car, car.charging = true →
      car.carState.chargerPower ≤ car.chargePeak.chargerPower →
      (evalChargeStep car).1.chargePeak = car.chargePeak) ∧
    (∀ (car : Car) (s0 : CarState) (ss : List CarState),
      car.charging = false → 0 < s0.chargerPower → (∀ s ∈ ss, 0 < s.chargerPower) →
      (chargeRun (chargeFeed car s0) ss).charging = true ∧
      (chargeRun (chargeFeed car s0) ss).chargePeak.chargerPower =
        (ss.map CarState.chargerPower).foldl max s0.chargerPower) ∧
    (∀ (car : Car) (b : Bool) (ds : CarState),
      evalChargeStep { car with driving := b, driveStart := ds } =
        ({ (evalChargeStep car).1 with driving := b, driveStart := ds },
          (evalChargeStep car).2)) ∧
    (∀ (lookup : LookupFn) (car : Car),
      (evalStep lookup car).1.charging = (evalChargeStep car).1.charging ∧
      (evalStep lookup car).1.chargeStart = (evalChargeStep car).1.chargeStart ∧
      (evalStep lookup car).1.chargePeak = (evalChargeStep car).1.chargePeak) := by
  refine ⟨?_, ?_, ?_, ?_, ?_, ?_⟩
  · intro car h
    simp only [chargeEndCond, chargePeakCond, chargeStartCond]
    refine ⟨?_, ?_, ?_⟩
    · rintro ⟨⟨-, h1⟩, ⟨-, h2⟩⟩
      omega
    · rintro ⟨⟨h1, -⟩, ⟨h2, -⟩⟩
      rw [h1] at h2
      cases h2
    · rintro ⟨⟨h1, -⟩, ⟨h2, -⟩⟩
      rw [h1] at h2
      cases h2
  · intro car
    refine ⟨?_, ?_, ?_, ?_⟩
    · intro h
      simp only [chargeEndCond] at h
      simp only [evalChargeStep]
      rw [if_pos h]
    · intro h1 h2
      simp only [chargeEndCond] at h1
      simp only [chargePeakCond] at h2
      simp only [evalChargeStep]
      rw [if_neg h1, if_pos h2]
    · intro h1 h2 h3
      simp only [chargeEndCond] at h1
      simp only [chargePeakCond] at h2
      simp only [chargeStartCond] at h3
      simp only [evalChargeStep]
      rw [if_neg h1, if_neg h2, if_pos h3]
    · intro h1 h2 h3
      simp only [chargeEndCond] at h1
      simp only [chargePeakCond] at h2
      simp only [chargeStartCond] at h3
      simp only [evalChargeStep]
      rw [if_neg h1, if_neg h2, if_neg h3]
  · intro car h1 h2
    simp only [evalChargeStep]
    split_ifs with ha hb hc
    · rfl
    · exact absurd hb.2 (by omega)
    · rw [hc.1] at h1
      cases h1
    · rfl
  · intro car s0 ss hch hs0 hall
    have hfeed : chargeFeed car s0 =
        { car with
            carState := s0, charging := true, chargeStart := s0, chargePeak := s0 } := by
      simp only [chargeFeed, evalChargeStep]
      rw [if_neg (by rintro ⟨h, -⟩; rw [hch] at h; cases h),
        if_neg (by rintro ⟨h, -⟩; rw [hch] at h; cases h), if_pos ⟨hch, hs0⟩]
    rw [hfeed]
    exact chargeRun_peak_inv ss _ rfl hs0 hall
  · intro car b ds
    simp only [evalChargeStep]
    split_ifs <;> rfl
  · exact evalStep_charge_fields

theorem chargingAxis_spec_witness :
    (chargeRun (chargeFeed {} { chargerPower := 5 })
        [{ chargerPower := 7, batteryLevel := 60 }, { chargerPower := 7 },
          { chargerPower := 6 }]).chargePeak.chargerPower =
      ([{ chargerPower := 7, batteryLevel := 60 }, { chargerPower := 7 },
          { chargerPower := 6 }].map CarState.chargerPower).foldl max 5 ∧
    (evalChargeStep { charging := true, chargePeak := { chargerPower := 7 }, carState := { chargerPower := 7, batteryLevel := 55 } }).1.chargePeak =
      ({ chargerPower := 7 } : CarState) :=
  ⟨(chargingAxis_spec.2.2.2.1 {} { chargerPower := 5 }
      [{ chargerPower := 7, batteryLevel := 60 }, { chargerPower := 7 },
        { chargerPower := 6 }] rfl (by decide) (by decide)).2,
   chargingAxis_spec.2.2.1 { charging := true, chargePeak := { chargerPower := 7 }, carState := { chargerPower := 7, batteryLevel := 55 } } rfl (by decide)⟩

/-! ### C5 -/

theorem lookupCar_setCar (m : CarMap) (i : ℕ) (c : Car) (j : ℕ) :
    lookupCar (setCar m i c) j = if j = i then some c else lookupCar m j := by
  induction m with
  | nil =>
      by_cases h : j = i
      · subst h
        simp [setCar, lookupCar]
      · simp only [setCar, lookupCar, List.find?]
        rw [beq_false_of_ne (fun he => h he.symm)]
        simp [h]
  | cons hd tl ih =>
      obtain ⟨k, c'⟩ := hd
      simp only [setCar]
      by_cases hk : k = i
      · subst hk
        rw [if_pos rfl]
        by_cases h : j = k
        · subst h
          simp [lookupCar, List.find?]
        · simp only [lookupCar, List.find?]
          rw [beq_false_of_ne (fun he => h he.symm)]
          simp [h]
      · rw [if_neg hk]
        by_cases h : j = k
        · subst h
          have hji : ¬ j = i := hk
          simp [lookupCar, List.find?, hji]
        · simp only [lookupCar, List.find?]
          rw [beq_false_of_ne (fun he => h he.symm)]
          have := ih
          simp only [lookupCar] at this
          simp only [this]

theorem runWorld_defaultCar (us : List (ℕ × String × String × ℤ)) (w : World)
    (seen : List ℕ)
    (hdom : ∀ id, (lookupCar w.cars id).isSome = true ↔ id ∈ seen) :
    (runWorld w us).defaultCar =
      lastDiscovered seen w.defaultCar (us.map (fun u => u.1)) := by
  induction us generalizing w seen with
  | nil => rfl
  | cons u rest ih =>
      rw [show runWorld w (u :: rest) =
        runWorld (carHandler w u.1 u.2.1 u.2.2.1 u.2.2.2) rest from rfl]
      rw [show (u :: rest).map (fun u => u.1) = u.1 :: rest.map (fun u => u.1) from rfl]
      rcases hu : lookupCar w.cars u.1 with _ | car
      · have hmem : u.1 ∉ seen := by
          rw [← hdom]
          simp [hu]
        rw [show lastDiscovered seen w.defaultCar (u.1 :: rest.map (fun u => u.1)) =
          lastDiscovered (u.1 :: seen) u.1 (rest.map (fun u => u.1)) from by
            simp only [lastDiscovered]
            rw [if_neg hmem]]
        have hhandler : carHandler w u.1 u.2.1 u.2.2.1 u.2.2.2 =
            { cars := setCar w.cars u.1 (Car.Update {} u.2.1 u.2.2.1 u.2.2.2),
              defaultCar := u.1 } := by
          simp only [carHandler, hu]
        rw [hhandler]
        apply ih
        intro id
        rw [show lookupCar (setCar w.cars u.1 (Car.Update {} u.2.1 u.2.2.1 u.2.2.2)) id =
          if id = u.1 then some (Car.Update {} u.2.1 u.2.2.1 u.2.2.2)
          else lookupCar w.cars id from lookupCar_setCar _ _ _ _]
        by_cases hid : id = u.1
        · subst hid
          simp
        · rw [if_neg hid]
          simp only [List.mem_cons]
          rw [hdom id]
          constructor
          · intro h
            exact Or.inr h
          · intro h
            rcases h with h | h
            · exact absurd h hid
            · exact h
      · have hmem : u.1 ∈ seen := by
          rw [← hdom]
          rw [hu]
          rfl
        rw [show lastDiscovered seen w.defaultCar (u.1 :: rest.map (fun u => u.1)) =
          lastDiscovered seen w.defaultCar (rest.map (fun u => u.1)) from by
            simp only [lastDiscovered]
            rw [if_pos hmem]]
        have hhandler : carHandler w u.1 u.2.1 u.2.2.1 u.2.2.2 =
            { w with cars := setCar w.cars u.1 (car.Update u.2.1 u.2.2.1 u.2.2.2) } := by
          simp only [carHandler, hu]
        rw [hhandler]
        apply ih
        intro id
        rw [show lookupCar (setCar w.cars u.1 (car.Update u.2.1 u.2.2.1 u.2.2.2)) id =
          if id = u.1 then some (car.Update u.2.1 u.2.2.1 u.2.2.2)
          else lookupCar w.cars id from lookupCar_setCar _ _ _ _]
        by_cases hid : id = u.1
        · subst hid
          simp [hmem]
        · rw [if_neg hid]
          exact hdom id

/-- C5 counterexample: after updates discovering car 1 first and car 2
second, the status command reports car 2's battery (the most recently
discovered car), not the battery of the first-discovered car 1. -/
theorem statusDefault_counterexample :
    (c5updates.map (fun u => u.1)).head? = some 1 ∧
    (runWorld {} c5updates).defaultCar = 2 ∧
    statusOfDefault (runWorld {} c5updates) = some "🔋80%" ∧
    (lookupCar (runWorld {} c5updates).cars 1).map statusMessage = some "🔋50%" ∧
    statusOfDefault (runWorld {} c5updates) ≠
      (lookupCar (runWorld {} c5updates).cars 1).map statusMessage := by
  decide

/-- C5 amended: the default vehicle answering the status command is the
most recently discovered vehicle identifier (the identifier whose first
update arrived last among all distinct vehicles seen so far), not the
first one observed. -/
theorem statusDefault_last_discovered :
    (∀ us : List (ℕ × String × String × ℤ),
      (runWorld {} us).defaultCar = lastDiscovered [] 0 (us.map (fun u => u.1))) ∧
    statusOfDefault (runWorld {} c5updates) = some "🔋80%" :=
  ⟨fun us => runWorld_defaultCar us {} [] (by intro id; simp [lookupCar, List.find?]),
   by decide⟩

/-! ### C8 -/

theorem update_display_name (car : Car) (v : String) (t : ℤ) :
    car.Update "display_name" v t = { setSnapshotTime car t with displayName := v } := rfl

theorem update_state (car : Car) (v : String) (t : ℤ) :
    car.Update "state" v t = { setSnapshotTime car t with state := v } := rfl

theorem update_shift_state (car : Car) (v : String) (t : ℤ) :
    car.Update "shift_state" v t = { car with carState := { car.carState with «at» := t, shiftState := v } } := rfl

theorem update_geofence (car : Car) (v : String) (t : ℤ) :
    car.Update "geofence" v t = { car with carState := { car.carState with «at» := t, geofence := v } } := rfl

theorem update_charger_power (car : Car) (v : String) (t : ℤ) :
    car.Update "charger_power" v t =
      match parseIntOpt v with
      | some i => { car with carState := { car.carState with «at» := t, chargerPower := i } }
      | none => setSnapshotTime car t := by
  cases h : parseIntOpt v <;> simp only [Car.Update, setSnapshotTime, h] <;> rfl

theorem update_charger_voltage (car : Car) (v : String) (t : ℤ) :
    car.Update "charger_voltage" v t =
      match parseIntOpt v with
      | some i => { car with carState := { car.carState with «at» := t, chargerVoltage := i } }
      | none => setSnapshotTime car t := by
  cases h : parseIntOpt v <;> simp only [Car.Update, setSnapshotTime, h] <;> rfl

theorem update_time_to_full_charge (car : Car) (v : String) (t : ℤ) :
    car.Update "time_to_full_charge" v t =
      match parseFloatOpt v with
      | some q => { car with carState := { car.carState with «at» := t, timeToFullCharge := q } }
      | none => setSnapshotTime car t := by
  cases h : parseFloatOpt v <;> simp only [Car.Update, setSnapshotTime, h] <;> rfl

theorem update_charger_actual_current (car : Car) (v : String) (t : ℤ) :
    car.Update "charger_actual_current" v t =
      match parseIntOpt v with
      | some i => { car with carState := { car.carState with «at» := t, chargerActualCurrent := i } }
      | none => setSnapshotTime car t := by
  cases h : parseIntOpt v <;> simp only [Car.Update, setSnapshotTime, h] <;> rfl

theorem update_charge_energy_added (car : Car) (v : String) (t : ℤ) :
    car.Update "charge_energy_added" v t =
      match parseFloatOpt v with
      | some q => { car with carState := { car.carState with «at» := t, chargeEnergyAdded := q } }
      | none => setSnapshotTime car t := by
  cases h : parseFloatOpt v <;> simp only [Car.Update, setSnapshotTime, h] <;> rfl

theorem update_est_battery_range_km (car : Car) (v : String) (t : ℤ) :
    car.Update "est_battery_range_km" v t =
      match parseFloatOpt v with
      | some q => { car with carState := { car.carState with «at» := t, estBatteryRangeKm := q } }
      | none => setSnapshotTime car t := by
  cases h : parseFloatOpt v <;> simp only [Car.Update, setSnapshotTime, h] <;> rfl

theorem update_ideal_battery_range_km (car : Car) (v : String) (t : ℤ) :
    car.Update "ideal_battery_range_km" v t =
      match parseFloatOpt v with
      | some q => { car with carState := { car.carState with «at» := t, idealBatteryRangeKm := q } }
      | none => setSnapshotTime car t := by
  cases h : parseFloatOpt v <;> simp only [Car.Update, setSnapshotTime, h] <;> rfl

theorem update_rated_battery_range_km (car : Car) (v : String) (t : ℤ) :
    car.Update "rated_battery_range_km" v t =
      match parseFloatOpt v with
      | some q => { car with carState := { car.carState with «at» := t, ratedBatteryRangeKm := q } }
      | none => setSnapshotTime car t := by
  cases h : parseFloatOpt v <;> simp only [Car.Update, setSnapshotTime, h] <;> rfl

theorem update_battery_level (car : Car) (v : String) (t : ℤ) :
    car.Update "battery_level" v t =
      match parseIntOpt v with
      | some i => { car with carState := { car.carState with «at» := t, batteryLevel := i } }
      | none => setSnapshotTime car t := by
  cases h : parseIntOpt v <;> simp only [Car.Update, setSnapshotTime, h] <;> rfl

theorem update_odometer (car : Car) (v : String) (t : ℤ) :
    car.Update "odometer" v t =
      match parseFloatOpt v with
      | some q => { car with carState := { car.carState with «at» := t, odometer := q } }
      | none => setSnapshotTime car t := by
  cases h : parseFloatOpt v <;> simp only [Car.Update, setSnapshotTime, h] <;> rfl

theorem update_outside_temp (car : Car) (v : String) (t : ℤ) :
    car.Update "outside_temp" v t =
      match parseFloatOpt v with
      | some q => { car with carState := { car.carState with «at» := t, outsideTemp := q } }
      | none => setSnapshotTime car t := by
  cases h : parseFloatOpt v <;> simp only [Car.Update, setSnapshotTime, h] <;> rfl

theorem update_inside_temp (car : Car) (v : String) (t : ℤ) :
    car.Update "inside_temp" v t =
      match parseFloatOpt v with
      | some q => { car with carState := { car.carState with «at» := t, insideTemp := q } }
      | none => setSnapshotTime car t := by
  cases h : parseFloatOpt v <;> simp only [Car.Update, setSnapshotTime, h] <;> rfl

theorem update_plugged_in (car : Car) (v : String) (t : ℤ) :
    car.Update "plugged_in" v t = { car with carState := { car.carState with «at» := t, pluggedIn := v == "true" } } := rfl

theorem update_latitude (car : Car) (v : String) (t : ℤ) :
    car.Update "latitude" v t =
      match parseFloatOpt v with
      | some q => { car with carState := { car.carState with «at» := t, latitude := q } }
      | none => setSnapshotTime car t := by
  cases h : parseFloatOpt v <;> simp only [Car.Update, setSnapshotTime, h] <;> rfl

theorem update_longitude (car : Car) (v : String) (t : ℤ) :
    car.Update "longitude" v t =
      match parseFloatOpt v with
      | some q => { car with carState := { car.carState with «at» := t, longitude := q } }
      | none => setSnapshotTime car t := by
  cases h : parseFloatOpt v <;> simp only [Car.Update, setSnapshotTime, h] <;> rfl

theorem update_unknown (car : Car) (key v : String) (t : ℤ)
    (h : key ∉ (["display_name", "state", "shift_state", "geofence", "charger_power", "charger_voltage", "time_to_full_charge", "charger_actual_current", "charge_energy_added", "est_battery_range_km", "ideal_battery_range_km", "rated_battery_range_km", "battery_level", "odometer", "outside_temp", "inside_temp", "plugged_in", "latitude", "longitude"] : List String)) :
    car.Update key v t = setSnapshotTime car t := by
  simp only [List.mem_cons, not_or] at h
  obtain ⟨h1, h2, h3, h4, h5, h6, h7, h8, h9, h10, h11, h12, h13, h14, h15, h16, h17, h18,
    h19, -⟩ := h
  simp only [Car.Update, setSnapshotTime]
  rw [if_neg h1, if_neg h2, if_neg h3, if_neg h4, if_neg h5, if_neg h6, if_neg h7,
    if_neg h8, if_neg h9, if_neg h10, if_neg h11, if_neg h12, if_neg h13, if_neg h14,
    if_neg h15, if_neg h16, if_neg h17, if_neg h18, if_neg h19]

theorem update_at (car : Car) (key value : String) (now : ℤ) :
    (car.Update key value now).carState.«at» = now := by
  by_cases h1 : key = "display_name"
  · subst h1; rfl
  by_cases h2 : key = "state"
  · subst h2; rfl
  by_cases h3 : key = "shift_state"
  · subst h3; rfl
  by_cases h4 : key = "geofence"
  · subst h4; rfl
  by_cases h5 : key = "charger_power"
  · subst h5
    rw [update_charger_power]
    cases parseIntOpt value <;> rfl
  by_cases h6 : key = "charger_voltage"
  · subst h6
    rw [update_charger_voltage]
    cases parseIntOpt value <;> rfl
  by_cases h7 : key = "time_to_full_charge"
  · subst h7
    rw [update_time_to_full_charge]
    cases parseFloatOpt value <;> rfl
  by_cases h8 : key = "charger_actual_current"
  · subst h8
    rw [update_charger_actual_current]
    cases parseIntOpt value <;> rfl
  by_cases h9 : key = "charge_energy_added"
  · subst h9
    rw [update_charge_energy_added]
    cases parseFloatOpt value <;> rfl
  by_cases h10 : key = "est_battery_range_km"
  · subst h10
    rw [update_est_battery_range_km]
    cases parseFloatOpt value <;> rfl
  by_cases h11 : key = "ideal_battery_range_km"
  · subst h11
    rw [update_ideal_battery_range_km]
    cases parseFloatOpt value <;> rfl
  by_cases h12 : key = "rated_battery_range_km"
  · subst h12
    rw [update_rated_battery_range_km]
    cases parseFloatOpt value <;> rfl
  by_cases h13 : key = "battery_level"
  · subst h13
    rw [update_battery_level]
    cases parseIntOpt value <;> rfl
  by_cases h14 : key = "odometer"
  · subst h14
    rw [update_odometer]
    cases parseFloatOpt value <;> rfl
  by_cases h15 : key = "outside_temp"
  · subst h15
    rw [update_outside_temp]
    cases parseFloatOpt value <;> rfl
  by_cases h16 : key = "inside_temp"
  · subst h16
    rw [update_inside_temp]
    cases parseFloatOpt value <;> rfl
  by_cases h17 : key = "plugged_in"
  · subst h17; rfl
  by_cases h18 : key = "latitude"
  · subst h18
    rw [update_latitude]
    cases parseFloatOpt value <;> rfl
  by_cases h19 : key = "longitude"
  · subst h19
    rw [update_longitude]
    cases parseFloatOpt value <;> rfl
  rw [update_unknown car key value now (by simp [h1, h2, h3, h4, h5, h6, h7, h8, h9, h10, h11, h12, h13, h14, h15, h16, h17, h18, h19])]
  rfl

/-- C8: every call of the field-update operation overwrites the snapshot
timestamp with the supplied current time, even for unrecognized field names
or unparseable values; a recognized field name with a parseable value
overwrites exactly that one field (all others unchanged, stated per field
as a record-update equation whose `none` branch is the
timestamp-only update); an unparseable numeric value or an unrecognized
field name changes nothing but the timestamp and surfaces no error (the
operation is total). -/
theorem applyFieldUpdate_frame :
    (∀ (car : Car) (key value : String) (now : ℤ),
      key ∉ (["display_name", "state", "shift_state", "geofence", "charger_power", "charger_voltage", "time_to_full_charge", "charger_actual_current", "charge_energy_added", "est_battery_range_km", "ideal_battery_range_km", "rated_battery_range_km", "battery_level", "odometer", "outside_temp", "inside_temp", "plugged_in", "latitude", "longitude"] : List String) →
      car.Update key value now = setSnapshotTime car now) ∧
    (∀ (car : Car) (key value : String) (now : ℤ),
      (car.Update key value now).carState.«at» = now) ∧
    (∀ (car : Car) (v : String) (t : ℤ),
      car.Update "display_name" v t = { setSnapshotTime car t with displayName := v }) ∧
    (∀ (car : Car) (v : String) (t : ℤ),
      car.Update "state" v t = { setSnapshotTime car t with state := v }) ∧
    (∀ (car : Car) (v : String) (t : ℤ),
      car.Update "shift_state" v t = { car with carState := { car.carState with «at» := t, shiftState := v } }) ∧
    (∀ (car : Car) (v : String) (t : ℤ),
      car.Update "geofence" v t = { car with carState := { car.carState with «at» := t, geofence := v } }) ∧
    (∀ (car : Car) (v : String) (t : ℤ),
      car.Update "charger_power" v t =
        match parseIntOpt v with
        | some i => { car with carState := { car.carState with «at» := t, chargerPower := i } }
        | none => setSnapshotTime car t) ∧
    (∀ (car : Car) (v : String) (t : ℤ),
      car.Update "charger_voltage" v t =
        match parseIntOpt v with
        | some i => { car with carState := { car.carState with «at» := t, chargerVoltage := i } }
        | none => setSnapshotTime car t) ∧
    (∀ (car : Car) (v : String) (t : ℤ),
      car.Update "time_to_full_charge" v t =
        match parseFloatOpt v with
        | some q => { car with carState := { car.carState with «at» := t, timeToFullCharge := q } }
        | none => setSnapshotTime car t) ∧
    (∀ (car : Car) (v : String) (t : ℤ),
      car.Update "charger_actual_current" v t =
        match parseIntOpt v with
        | some i => { car with carState := { car.carState with «at» := t, chargerActualCurrent := i } }
        | none => setSnapshotTime car t) ∧
    (∀ (car : Car) (v : String) (t : ℤ),
      car.Update "charge_energy_added" v t =
        match parseFloatOpt v with
        | some q => { car with carState := { car.carState with «at» := t, chargeEnergyAdded := q } }
        | none => setSnapshotTime car t) ∧
    (∀ (car : Car) (v : String) (t : ℤ),
      car.Update "est_battery_range_km" v t =
        match parseFloatOpt v with
        | some q => { car with carState := { car.carState with «at» := t, estBatteryRangeKm := q } }
        | none => setSnapshotTime car t) ∧
    (∀ (car : Car) (v : String) (t : ℤ),
      car.Update "ideal_battery_range_km" v t =
        match parseFloatOpt v with
        | some q => { car with carState := { car.carState with «at» := t, idealBatteryRangeKm := q } }
        | none => setSnapshotTime car t) ∧
    (∀ (car : Car) (v : String) (t : ℤ),
      car.Update "rated_battery_range_km" v t =
        match parseFloatOpt v with
        | some q => { car with carState := { car.carState with «at» := t, ratedBatteryRangeKm := q } }
        | none => setSnapshotTime car t) ∧
    (∀ (car : Car) (v : String) (t : ℤ),
      car.Update "battery_level" v t =
        match parseIntOpt v with
        | some i => { car with carState := { car.carState with «at» := t, batteryLevel := i } }
        | none => setSnapshotTime car t) ∧
    (∀ (car : Car) (v : String) (t : ℤ),
      car.Update "odometer" v t =
        match parseFloatOpt v with
        | some q => { car with carState := { car.carState with «at» := t, odometer := q } }
        | none => setSnapshotTime car t) ∧
    (∀ (car : Car) (v : String) (t : ℤ),
      car.Update "outside_temp" v t =
        match parseFloatOpt v with
        | some q => { car with carState := { car.carState with «at» := t, outsideTemp := q } }
        | none => setSnapshotTime car t) ∧
    (∀ (car : Car) (v : String) (t : ℤ),
      car.Update "inside_temp" v t =
        match parseFloatOpt v with
        | some q => { car with carState := { car.carState with «at» := t, insideTemp := q } }
        | none => setSnapshotTime car t) ∧
    (∀ (car : Car) (v : String) (t : ℤ),
      car.Update "plugged_in" v t = { car with carState := { car.carState with «at» := t, pluggedIn := v == "true" } }) ∧
    (∀ (car : Car) (v : String) (t : ℤ),
      car.Update "latitude" v t =
        match parseFloatOpt v with
        | some q => { car with carState := { car.carState with «at» := t, latitude := q } }
        | none => setSnapshotTime car t) ∧
    (∀ (car : Car) (v : String) (t : ℤ),
      car.Update "longitude" v t =
        match parseFloatOpt v with
        | some q => { car with carState := { car.carState with «at» := t, longitude := q } }
        | none => setSnapshotTime car t) :=
  ⟨update_unknown, update_at, update_display_name, update_state, update_shift_state, update_geofence, update_charger_power, update_charger_voltage, update_time_to_full_charge, update_charger_actual_current, update_charge_energy_added, update_est_battery_range_km, update_ideal_battery_range_km, update_rated_battery_range_km, update_battery_level, update_odometer, update_outside_temp, update_inside_temp, update_plugged_in, update_latitude, update_longitude⟩

theorem applyFieldUpdate_frame_witness :
    Car.Update {} "vin" "5YJ3E" 7 = setSnapshotTime {} 7 :=
  applyFieldUpdate_frame.1 {} "vin" "5YJ3E" 7 (by decide)

/-! ### C9 -/

/-- C9 counterexample: start from a car in an active charging session whose
batched snapshot shows charger power 0, unchanged battery level and shift
state "D" with no driving session.  The first evaluation detects the
charging end, the message is suppressed (battery unchanged), and the Go
`break` skips the driving axis.  Applying the identical `charger_power`
update again changes nothing but the timestamp, yet re-evaluating the
detector fires a driving-start transition, contradicting the claim that no
charging or driving transition fires. -/
theorem updateTwice_refire_counterexample :
    Car.Update cexCar1 "charger_power" "0" 2 = setSnapshotTime cexCar1 2 ∧
    cexCar1.driving = false ∧
    (evalStep failLookup (Car.Update cexCar1 "charger_power" "0" 2)).1.driving = true :=
  ⟨rfl, rfl, rfl⟩

theorem update_idem_general (c c' : Car) (key value : String) (t1 t2 : ℤ)
    (hcs : c'.carState = (Car.Update c key value t1).carState)
    (hdn : c'.displayName = (Car.Update c key value t1).displayName)
    (hst : c'.state = (Car.Update c key value t1).state) :
    Car.Update c' key value t2 = setSnapshotTime c' t2 := by
  by_cases h1 : key = "display_name"
  · subst h1
    have hv : c'.displayName = value := by rw [hdn, update_display_name]
    rw [update_display_name, ← hv]
    rfl
  by_cases h2 : key = "state"
  · subst h2
    have hv : c'.state = value := by rw [hst, update_state]
    rw [update_state, ← hv]
    rfl
  by_cases h3 : key = "shift_state"
  · subst h3
    have hv : c'.carState.shiftState = value := by rw [hcs, update_shift_state]
    rw [update_shift_state, ← hv]
    rfl
  by_cases h4 : key = "geofence"
  · subst h4
    have hv : c'.carState.geofence = value := by rw [hcs, update_geofence]
    rw [update_geofence, ← hv]
    rfl
  by_cases h5 : key = "charger_power"
  · subst h5
    rw [update_charger_power]
    cases h : parseIntOpt value with
    | none => rfl
    | some i =>
        have hv : c'.carState.chargerPower = i := by
          rw [hcs, update_charger_power, h]
        rw [← hv]
        rfl
  by_cases h6 : key = "charger_voltage"
  · subst h6
    rw [update_charger_voltage]
    cases h : parseIntOpt value with
    | none => rfl
    | some i =>
        have hv : c'.carState.chargerVoltage = i := by
          rw [hcs, update_charger_voltage, h]
        rw [← hv]
        rfl
  by_cases h7 : key = "time_to_full_charge"
  · subst h7
    rw [update_time_to_full_charge]
    cases h : parseFloatOpt value with
    | none => rfl
    | some q =>
        have hv : c'.carState.timeToFullCharge = q := by
          rw [hcs, update_time_to_full_charge, h]
        rw [← hv]
        rfl
  by_cases h8 : key = "charger_actual_current"
  · subst h8
    rw [update_charger_actual_current]
    cases h : parseIntOpt value with
    | none => rfl
    | some i =>
        have hv : c'.carState.chargerActualCurrent = i := by
          rw [hcs, update_charger_actual_current, h]
        rw [← hv]
        rfl
  by_cases h9 : key = "charge_energy_added"
  · subst h9
    rw [update_charge_energy_added]
    cases h : parseFloatOpt value with
    | none => rfl
    | some q =>
        have hv : c'.carState.chargeEnergyAdded = q := by
          rw [hcs, update_charge_energy_added, h]
        rw [← hv]
        rfl
  by_cases h10 : key = "est_battery_range_km"
  · subst h10
    rw [update_est_battery_range_km]
    cases h : parseFloatOpt value with
    | none => rfl
    | some q =>
        have hv : c'.carState.estBatteryRangeKm = q := by
          rw [hcs, update_est_battery_range_km, h]
        rw [← hv]
        rfl
  by_cases h11 : key = "ideal_battery_range_km"
  · subst h11
    rw [update_ideal_battery_range_km]
    cases h : parseFloatOpt value with
    | none => rfl
    | some q =>
        have hv : c'.carState.idealBatteryRangeKm = q := by
          rw [hcs, update_ideal_battery_range_km, h]
        rw [← hv]
        rfl
  by_cases h12 : key = "rated_battery_range_km"
  · subst h12
    rw [update_rated_battery_range_km]
    cases h : parseFloatOpt value with
    | none => rfl
    | some q =>
        have hv : c'.carState.ratedBatteryRangeKm = q := by
          rw [hcs, update_rated_battery_range_km, h]
        rw [← hv]
        rfl
  by_cases h13 : key = "battery_level"
  · subst h13
    rw [update_battery_level]
    cases h : parseIntOpt value with
    | none => rfl
    | some i =>
        have hv : c'.carState.batteryLevel = i := by
          rw [hcs, update_battery_level, h]
        rw [← hv]
        rfl
  by_cases h14 : key = "odometer"
  · subst h14
    rw [update_odometer]
    cases h : parseFloatOpt value with
    | none => rfl
    | some q =>
        have hv : c'.carState.odometer = q := by
          rw [hcs, update_odometer, h]
        rw [← hv]
        rfl
  by_cases h15 : key = "outside_temp"
  · subst h15
    rw [update_outside_temp]
    cases h : parseFloatOpt value with
    | none => rfl
    | some q =>
        have hv : c'.carState.outsideTemp = q := by
          rw [hcs, update_outside_temp, h]
        rw [← hv]
        rfl
  by_cases h16 : key = "inside_temp"
  · subst h16
    rw [update_inside_temp]
    cases h : parseFloatOpt value with
    | none => rfl
    | some q =>
        have hv : c'.carState.insideTemp = q := by
          rw [hcs, update_inside_temp, h]
        rw [← hv]
        rfl
  by_cases h17 : key = "plugged_in"
  · subst h17
    have hv : c'.carState.pluggedIn = (value == "true") := by
      rw [hcs, update_plugged_in]
    rw [update_plugged_in, ← hv]
    rfl
  by_cases h18 : key = "latitude"
  · subst h18
    rw [update_latitude]
    cases h : parseFloatOpt value with
    | none => rfl
    | some q =>
        have hv : c'.carState.latitude = q := by
          rw [hcs, update_latitude, h]
        rw [← hv]
        rfl
  by_cases h19 : key = "longitude"
  · subst h19
    rw [update_longitude]
    cases h : parseFloatOpt value with
    | none => rfl
    | some q =>
        have hv : c'.carState.longitude = q := by
          rw [hcs, update_longitude, h]
        rw [← hv]
        rfl
  rw [update_unknown c' key value t2 (by simp [h1, h2, h3, h4, h5, h6, h7, h8, h9, h10,
    h11, h12, h13, h14, h15, h16, h17, h18, h19])]

theorem evalChargeStep_stable (c d : Car)
    (hch : d.charging = (evalChargeStep c).1.charging)
    (hpk : d.chargePeak.chargerPower = (evalChargeStep c).1.chargePeak.chargerPower)
    (hpw : d.carState.chargerPower = c.carState.chargerPower) :
    evalChargeStep d = (d, none) := by
  simp only [evalChargeStep] at hch hpk
  split_ifs at hch hpk with h1 h2 h3
  · have hch' : d.charging = false := by simpa using hch
    simp only [evalChargeStep]
    rw [if_neg (by rintro ⟨ha, -⟩; rw [hch'] at ha; cases ha),
      if_neg (by rintro ⟨ha, -⟩; rw [hch'] at ha; cases ha),
      if_neg (by rintro ⟨-, hb⟩; rw [hpw] at hb; omega)]
  · have hch' : d.charging = true := by rw [hch]; simpa using h2.1
    have hpk' : d.chargePeak.chargerPower = c.carState.chargerPower := by simpa using hpk
    have hpne : ¬ c.carState.chargerPower = 0 := fun hz => h1 ⟨h2.1, hz⟩
    simp only [evalChargeStep]
    rw [if_neg (by rintro ⟨-, hb⟩; rw [hpw] at hb; exact hpne hb),
      if_neg (by rintro ⟨-, hb⟩; rw [hpk', hpw] at hb; omega),
      if_neg (by rintro ⟨ha, -⟩; rw [hch'] at ha; cases ha)]
  · have hch' : d.charging = true := by simpa using hch
    have hpk' : d.chargePeak.chargerPower = c.carState.chargerPower := by simpa using hpk
    simp only [evalChargeStep]
    rw [if_neg (by rintro ⟨-, hb⟩; rw [hpw] at hb; omega),
      if_neg (by rintro ⟨-, hb⟩; rw [hpk', hpw] at hb; omega),
      if_neg (by rintro ⟨ha, -⟩; rw [hch'] at ha; cases ha)]
  · have hch' : d.charging = c.charging := by simpa using hch
    have hpk' : d.chargePeak.chargerPower = c.chargePeak.chargerPower := by simpa using hpk
    simp only [evalChargeStep]
    rw [if_neg (by rintro ⟨ha, hb⟩; rw [hch'] at ha; rw [hpw] at hb; exact h1 ⟨ha, hb⟩),
      if_neg (by rintro ⟨ha, hb⟩; rw [hch'] at ha; rw [hpk', hpw] at hb; exact h2 ⟨ha, hb⟩),
      if_neg (by rintro ⟨ha, hb⟩; rw [hch'] at ha; rw [hpw] at hb; exact h3 ⟨ha, hb⟩)]

theorem evalDriveStep_stable (lookup lookup2 : LookupFn) (c d : Car)
    (hdr : d.driving = (evalDriveStep lookup c).1.driving)
    (hss : d.carState.shiftState = c.carState.shiftState) :
    evalDriveStep lookup2 d = (d, none) := by
  simp only [evalDriveStep] at hdr
  split_ifs at hdr with g1 g2 g3
  · have hdr' : d.driving = true := by simpa using hdr
    simp only [evalDriveStep]
    rw [if_neg (by rintro ⟨-, hb⟩; rw [hdr'] at hb; cases hb),
      if_neg (by rintro ⟨ha, -⟩; rw [hss, g1.1] at ha; cases ha)]
  · have hdr' : d.driving = false := by simpa using hdr
    simp only [evalDriveStep]
    rw [if_neg (by rintro ⟨ha, -⟩; rw [hss, g2.1] at ha; cases ha),
      if_neg (by rintro ⟨-, hb⟩; rw [hdr'] at hb; cases hb)]
  · have hdr' : d.driving = false := by simpa using hdr
    simp only [evalDriveStep]
    rw [if_neg (by rintro ⟨ha, -⟩; rw [hss, g2.1] at ha; cases ha),
      if_neg (by rintro ⟨-, hb⟩; rw [hdr'] at hb; cases hb)]
  · have hdr' : d.driving = c.driving := by simpa using hdr
    simp only [evalDriveStep]
    rw [if_neg (by rintro ⟨ha, hb⟩; rw [hss] at ha; rw [hdr'] at hb; exact g1 ⟨ha, hb⟩),
      if_neg (by rintro ⟨ha, hb⟩; rw [hss] at ha; rw [hdr'] at hb; exact g2 ⟨ha, hb⟩)]

theorem evalStep_eq_of_not_suppressed (lookup : LookupFn) (car : Car)
    (h : ¬ chargeEndSuppressed lookup car) :
    (evalStep lookup car).1 = (evalDriveStep lookup (evalChargeStep car).1).1 := by
  simp only [chargeEndSuppressed] at h
  simp only [evalStep]
  rcases hc : evalChargeStep car with ⟨car1, ev⟩
  rw [hc] at h
  cases ev with
  | none => simp
  | some t =>
      obtain ⟨s, e, p⟩ := t
      simp only at h
      simp only
      rw [if_neg h]

theorem evalStep_of_stable (lookup : LookupFn) (d : Car)
    (hcs : evalChargeStep d = (d, none))
    (hds : evalDriveStep lookup d = (d, none)) :
    evalStep lookup d = (d, none, none) := by
  simp only [evalStep, hcs, hds]

/-- C9 amended: applying the same field update twice with an identical
value leaves the car (other than the snapshot timestamp) unchanged; and
provided the evaluation after the first application did not take the
suppressed-charging-end early exit (the Go `break` that skips the
driving-axis check when the charging-end message is empty), re-evaluating
the session detector after the duplicate update fires no charging or
driving transition: the state is unchanged and no message is sent. -/
theorem updateTwice_idempotent :
    (∀ (car : Car) (key value : String) (t1 t2 : ℤ),
      Car.Update (Car.Update car key value t1) key value t2 =
        setSnapshotTime (Car.Update car key value t1) t2) ∧
    (∀ (lookup : LookupFn) (car : Car) (key value : String) (t1 t2 : ℤ),
      ¬ chargeEndSuppressed lookup (Car.Update car key value t1) →
      evalStep lookup
          (Car.Update ((evalStep lookup (Car.Update car key value t1)).1) key value t2) =
        (Car.Update ((evalStep lookup (Car.Update car key value t1)).1) key value t2,
          none, none)) := by
  constructor
  · intro car key value t1 t2
    exact update_idem_general car _ key value t1 t2 rfl rfl rfl
  · intro lookup car key value t1 t2 hns
    have hE : (evalStep lookup (Car.Update car key value t1)).1 =
        (evalDriveStep lookup (evalChargeStep (Car.Update car key value t1)).1).1 :=
      evalStep_eq_of_not_suppressed lookup _ hns
    have hCP := evalChargeStep_preserves (Car.Update car key value t1)
    have hDP := evalDriveStep_preserves lookup
      (evalChargeStep (Car.Update car key value t1)).1
    have hcsE : (evalStep lookup (Car.Update car key value t1)).1.carState =
        (Car.Update car key value t1).carState := by
      rw [hE, hDP.2.2.2.1, hCP.2.2.1]
    have hc2 : Car.Update ((evalStep lookup (Car.Update car key value t1)).1) key value t2 =
        setSnapshotTime ((evalStep lookup (Car.Update car key value t1)).1) t2 := by
      apply update_idem_general car _ key value t1 t2
      · exact hcsE
      · rw [hE, hDP.2.2.2.2.1, hCP.2.2.2.1]
      · rw [hE, hDP.2.2.2.2.2, hCP.2.2.2.2]
    rw [hc2]
    have hcs : evalChargeStep
        (setSnapshotTime ((evalStep lookup (Car.Update car key value t1)).1) t2) =
        (setSnapshotTime ((evalStep lookup (Car.Update car key value t1)).1) t2, none) := by
      apply evalChargeStep_stable (Car.Update car key value t1)
      · show ((evalStep lookup (Car.Update car key value t1)).1).charging = _
        rw [hE]
        exact hDP.1
      · show ((evalStep lookup (Car.Update car key value t1)).1).chargePeak.chargerPower = _
        rw [hE, hDP.2.2.1]
      · show ((evalStep lookup (Car.Update car key value t1)).1).carState.chargerPower = _
        rw [hcsE]
    have hds : evalDriveStep lookup
        (setSnapshotTime ((evalStep lookup (Car.Update car key value t1)).1) t2) =
        (setSnapshotTime ((evalStep lookup (Car.Update car key value t1)).1) t2, none) := by
      apply evalDriveStep_stable lookup lookup
        ((evalChargeStep (Car.Update car key value t1)).1)
      · show ((evalStep lookup (Car.Update car key value t1)).1).driving = _
        rw [hE]
      · show ((evalStep lookup (Car.Update car key value t1)).1).carState.shiftState = _
        rw [hcsE, hCP.2.2.1]
    exact evalStep_of_stable lookup _ hcs hds

theorem updateTwice_idempotent_witness :
    Car.Update (Car.Update {} "battery_level" "50" 1) "battery_level" "50" 2 =
      setSnapshotTime (Car.Update {} "battery_level" "50" 1) 2 ∧
    evalStep failLookup
        (Car.Update ((evalStep failLookup (Car.Update {} "battery_level" "50" 1)).1)
          "battery_level" "50" 2) =
      (Car.Update ((evalStep failLookup (Car.Update {} "battery_level" "50" 1)).1)
          "battery_level" "50" 2,
        none, none) :=
  ⟨updateTwice_idempotent.1 {} "battery_level" "50" 1 2,
   updateTwice_idempotent.2 failLookup {} "battery_level" "50" 1 2 (fun h => h)⟩
